import Mathlib

/-!
Shallow embedding of `pyflink/fn_execution/operations.py` (the stream
group-aggregate operations of the Flink Python harness), together with
theorems settling the specification claims about it.

The aggregate functions themselves (`GroupAggFunction`,
`GroupWindowAggFunction`, ...) are imported by `operations.py` from
`aggregate_slow` / `window_aggregate_slow`, which are external to the
sources under verification.  They are therefore modelled as abstract
interfaces (structures of state-transition functions); every theorem about
a dispatcher quantifies over an arbitrary such interface.  The dispatchers
additionally record the sequence of interface calls they make, so that
claims about invocation order ("watermark before element", "finish_bundle
exactly once", "dispatched to the processing-time handler") can be stated
directly.
-/

/-- Tag of a normal data record in the tagged input/output streams
(`NORMAL_RECORD = 0` in `operations.py`). -/
def NORMAL_RECORD : Nat := 0

/-- Tag of a timer record in the tagged input/output streams
(`TRIGGER_TIMER = 1` in `operations.py`). -/
def TRIGGER_TIMER : Nat := 1

/-- Timer kind carried in a firing timer payload: event-time registration
(`REGISTER_EVENT_TIMER = 0` in `operations.py`). -/
def REGISTER_EVENT_TIMER : Nat := 0

/-- Timer kind carried in a firing timer payload: processing-time
registration (`REGISTER_PROCESSING_TIMER = 1` in `operations.py`). -/
def REGISTER_PROCESSING_TIMER : Nat := 1

/-- Modelled from the spec: the operand kinds of timer requests
(register-event, register-processing, delete-event, delete-processing).
`pyflink.datastream.timerservice.TimerOperandType` is imported by
`operations.py` but its source is outside the verified tree. -/
inductive TimerOperandType where
  | REGISTER_EVENT_TIMER
  | REGISTER_PROC_TIMER
  | DELETE_EVENT_TIMER
  | DELETE_PROC_TIMER
deriving DecidableEq, Repr

/-- Modelled from the spec: the numeric value of each timer operand kind,
as accessed via `.value` in `operations.py`. -/
def TimerOperandType.value : TimerOperandType → Nat
  | .REGISTER_EVENT_TIMER => 0
  | .REGISTER_PROC_TIMER => 1
  | .DELETE_EVENT_TIMER => 2
  | .DELETE_PROC_TIMER => 3

/-- An internal timer `(timestamp, key, namespace)` as produced by
`InternalTimerImpl(timestamp, key, namespace)` and observed through
`get_timestamp` / `get_key` / `get_namespace`. -/
structure InternalTimer (K N : Type) where
  get_timestamp : Int
  get_key : K
  get_namespace : N
deriving DecidableEq, Repr

/-- Byte strings, as produced by the namespace coder. -/
abbrev Bytes := List Nat

section NonWindowed

/-!
### The non-windowed dispatcher
`AbstractStreamGroupAggregateOperation.process_element_or_timer`
(operations.py lines 356-365).
-/

variable {σ R K : Type}

/-- Abstract interface of the non-windowed group-aggregate function
(`GroupAggFunction` / `GroupTableAggFunction`, external to the verified
sources): explicit state passing over an opaque state type `σ`. -/
structure GroupAggFunction (σ R K : Type) where
  process_element : σ → R → σ
  on_timer : σ → K → σ
  finish_bundle : σ → σ × List R

/-- One entry of the non-windowed input batch, mirroring
`[element_type, element (for process_element), timestamp (for timer),
key (for timer)]` from the source comment; all fields other than
`element_type` are only read on the branch that needs them. -/
structure NonWindowedInput (R K : Type) where
  elementType : Nat
  element : R
  timestamp : Int
  key : K
deriving DecidableEq, Repr

/-- A call made by the non-windowed dispatcher on the aggregate function;
the dispatcher records these in order. -/
inductive NWCall (R K : Type) where
  | processElement (element : R)
  | onTimer (key : K)
  | finishBundle
deriving DecidableEq, Repr

/-- The loop body of `process_element_or_timer`: dispatch each input in
arrival order, threading the aggregate-function state and recording the
calls. -/
def processInputLoop (G : GroupAggFunction σ R K) (s : σ) :
    List (NonWindowedInput R K) → σ × List (NWCall R K)
  | [] => (s, [])
  | input :: rest =>
    let next :=
      if input.elementType == NORMAL_RECORD then
        (G.process_element s input.element, NWCall.processElement input.element)
      else
        (G.on_timer s input.key, NWCall.onTimer (R := R) input.key)
    let tail := processInputLoop G next.1 rest
    (tail.1, next.2 :: tail.2)

/-- Embedding of
`AbstractStreamGroupAggregateOperation.process_element_or_timer`: loop over
the batch dispatching NORMAL_RECORD inputs to `process_element` with the
element field and all other inputs to `on_timer` with the key field, then
return `finish_bundle()`.  Result: final state, returned output, and the
recorded call trace. -/
def AbstractStreamGroupAggregateOperation.process_element_or_timer
    (G : GroupAggFunction σ R K) (s : σ) (input_datas : List (NonWindowedInput R K)) :
    σ × List R × List (NWCall R K) :=
  let looped := processInputLoop G s input_datas
  let finished := G.finish_bundle looped.1
  (finished.1, finished.2, looped.2 ++ [NWCall.finishBundle])

/-- The call a single batch entry is dispatched to. -/
def nwDispatchCall (input : NonWindowedInput R K) : NWCall R K :=
  if input.elementType == NORMAL_RECORD then
    NWCall.processElement input.element
  else
    NWCall.onTimer input.key

/-- State transition a single batch entry causes. -/
def nwDispatchStep (G : GroupAggFunction σ R K) (s : σ) (input : NonWindowedInput R K) : σ :=
  if input.elementType == NORMAL_RECORD then
    G.process_element s input.element
  else
    G.on_timer s input.key

theorem processInputLoop_spec (G : GroupAggFunction σ R K) (s : σ)
    (inputs : List (NonWindowedInput R K)) :
    processInputLoop G s inputs =
      (inputs.foldl (nwDispatchStep G) s, inputs.map nwDispatchCall) := by
  induction inputs generalizing s with
  | nil => rfl
  | cons input rest ih =>
    simp only [processInputLoop, List.foldl_cons, List.map_cons]
    by_cases h : input.elementType == NORMAL_RECORD
    · simp [h, ih, nwDispatchStep, nwDispatchCall]
    · simp [h, ih, nwDispatchStep, nwDispatchCall]

end NonWindowed

section Windowed

/-!
### The windowed dispatcher
`StreamGroupWindowAggregateOperation.process_element_or_timer`
(operations.py lines 478-515).
-/

variable {σ R K N : Type}

/-- Abstract interface of the windowed group-aggregate function
(`GroupWindowAggFunction` from `window_aggregate_slow` / `_fast`, external
to the verified sources): explicit state passing over an opaque state type
`σ`; `get_timers` returns the drained requests together with the state
after draining. -/
structure GroupWindowAggFunction (σ R K N : Type) where
  process_watermark : σ → Int → σ
  process_element : σ → R → σ × List R
  get_timers : σ → σ × List (TimerOperandType × InternalTimer K N)
  on_event_time : σ → InternalTimer K N → σ × List R
  on_processing_time : σ → InternalTimer K N → σ × List R

/-- The timer payload row carried as `input_data[4]` on a TRIGGER_TIMER
input: `timer_data[0]` is the timer kind, `timer_data[1]` the key,
`timer_data[2]` the encoded window namespace. -/
structure TimerRow (K : Type) where
  timerType : Nat
  key : K
  encodedNs : Bytes
deriving DecidableEq, Repr

/-- One input to the windowed dispatcher, mirroring
`Tuple[int, Row, int, int, Row]`: `[0]` element type, `[1]` element,
`[2]` timestamp, `[3]` watermark, `[4]` timer payload.  Fields other than
the element type are only read on the branch that needs them. -/
structure WindowedInput (R K : Type) where
  elementType : Nat
  element : R
  timestamp : Int
  watermark : Int
  timerData : TimerRow K
deriving DecidableEq, Repr

/-- The inner timer-request list `[timer_operand_type.value, key,
timestamp, encoded_window]` of a TRIGGER_TIMER output entry. -/
structure TimerPayload (K : Type) where
  operand : Nat
  key : K
  timestamp : Int
  encodedWindow : Bytes
deriving DecidableEq, Repr

/-- One output entry of the windowed dispatcher, mirroring the 3-element
lists `[NORMAL_RECORD, result_data, None]` and
`[TRIGGER_TIMER, None, timer_request]` built in the source. -/
structure OutputEntry (R K : Type) where
  tag : Nat
  record : Option R
  timer : Option (TimerPayload K)
deriving DecidableEq, Repr

/-- A call made by the windowed dispatcher on the aggregate function; the
dispatcher records these in order. -/
inductive WinCall (R K N : Type) where
  | processWatermark (wm : Int)
  | processElement (element : R)
  | getTimers
  | onEventTime (timer : InternalTimer K N)
  | onProcessingTime (timer : InternalTimer K N)
deriving DecidableEq, Repr

/-- The TRIGGER_TIMER output entry built for one drained timer request:
`[TRIGGER_TIMER, None, [timer_operand_type.value, key, timestamp,
encoded_window]]` with `encoded_window = encode_nested(namespace)`. -/
def timerOutputEntry (encode_nested : N → Bytes)
    (timer : TimerOperandType × InternalTimer K N) : OutputEntry R K :=
  ⟨TRIGGER_TIMER, none,
   some ⟨timer.1.value, timer.2.get_key, timer.2.get_timestamp,
         encode_nested timer.2.get_namespace⟩⟩

/-- Embedding of
`StreamGroupWindowAggregateOperation.process_element_or_timer`.  On a
NORMAL_RECORD input: `process_watermark(input_data[3])`, then
`process_element(input_data[1])` whose results are emitted as
`[NORMAL_RECORD, r, None]`, then `get_timers()` whose results are emitted
as TRIGGER_TIMER entries.  Otherwise: rebuild the internal timer from
`input_data[2]` and `input_data[4]` (decoding the namespace) and dispatch
to `on_event_time` when the timer kind equals REGISTER_EVENT_TIMER, else
to `on_processing_time`, emitting the results as `[NORMAL_RECORD, r,
None]`.  Result: final state, the output list, and the recorded call
trace.  (The cython `InternalRow` re-wrapping on the `has_cython` path is
representation-only and is not modelled; the slow path passes the element
through unchanged.) -/
def StreamGroupWindowAggregateOperation.process_element_or_timer
    (G : GroupWindowAggFunction σ R K N)
    (encode_nested : N → Bytes) (decode_nested : Bytes → N)
    (s : σ) (input_data : WindowedInput R K) :
    σ × List (OutputEntry R K) × List (WinCall R K N) :=
  if input_data.elementType == NORMAL_RECORD then
    let s1 := G.process_watermark s input_data.watermark
    let pe := G.process_element s1 input_data.element
    let recordResults := pe.2.map (fun result_data =>
      OutputEntry.mk NORMAL_RECORD (some result_data) none)
    let gt := G.get_timers pe.1
    let timerResults := gt.2.map (timerOutputEntry encode_nested)
    (gt.1, recordResults ++ timerResults,
     [WinCall.processWatermark input_data.watermark,
      WinCall.processElement input_data.element,
      WinCall.getTimers])
  else
    let timestamp := input_data.timestamp
    let timer_data := input_data.timerData
    let key := timer_data.key
    let timer_type := timer_data.timerType
    let ns := decode_nested timer_data.encodedNs
    let timer : InternalTimer K N := ⟨timestamp, key, ns⟩
    if timer_type == REGISTER_EVENT_TIMER then
      let oet := G.on_event_time s timer
      (oet.1,
       oet.2.map (fun result_data => OutputEntry.mk NORMAL_RECORD (some result_data) none),
       [WinCall.onEventTime timer])
    else
      let opt := G.on_processing_time s timer
      (opt.1,
       opt.2.map (fun result_data => OutputEntry.mk NORMAL_RECORD (some result_data) none),
       [WinCall.onProcessingTime timer])

end Windowed

section Configuration

/-!
### Configuration-time construction
`StreamGroupWindowAggregateOperation.create_process_function` (window
assigner and trigger selection, operations.py lines 433-476),
`_create_named_property_function` (lines 517-534), the distinct-view
descriptor construction in
`AbstractStreamGroupAggregateOperation.generate_func` (lines 334-342),
and `ProcessFunctionOperation.InternalTimerService` (lines 696-716).
-/

/-- The proto enum `GroupWindow.window_type`
(TUMBLING_GROUP_WINDOW / SLIDING_GROUP_WINDOW / SESSION_GROUP_WINDOW). -/
inductive GroupWindowType where
  | TUMBLING_GROUP_WINDOW
  | SLIDING_GROUP_WINDOW
  | SESSION_GROUP_WINDOW
deriving DecidableEq, Repr

/-- The proto enum of named window properties.  `UNKNOWN tag` stands for
an out-of-range enum value, which the source code guards against with an
explicit `raise` branch. -/
inductive NamedWindowProperty where
  | WINDOW_START
  | WINDOW_END
  | ROW_TIME_ATTRIBUTE
  | PROC_TIME_ATTRIBUTE
  | UNKNOWN (tag : Nat)
deriving DecidableEq, Repr

/-- The group-window description `spec.serialized_fn.group_window` as read
by `StreamGroupWindowAggregateOperation`. -/
structure GroupWindow where
  window_type : GroupWindowType
  is_time_window : Bool
  window_size : Int
  is_row_time : Bool
  allowedLateness : Int
  time_field_index : Int
  namedProperties : List NamedWindowProperty
deriving DecidableEq, Repr

/-- The window assigner chosen by `create_process_function`:
`TumblingWindowAssigner(window_size, 0, is_row_time)` or
`CountTumblingWindowAssigner(window_size)`. -/
inductive WindowAssigner where
  | TumblingWindowAssigner (size : Int) (offset : Int) (is_event_time : Bool)
  | CountTumblingWindowAssigner (size : Int)
deriving DecidableEq, Repr

/-- The trigger chosen by `create_process_function`. -/
inductive WindowTrigger where
  | EventTimeTrigger
  | ProcessingTimeTrigger
  | CountTrigger (size : Int)
deriving DecidableEq, Repr

/-- Embedding of the window-assigner and trigger selection in
`StreamGroupWindowAggregateOperation.create_process_function`: tumbling
time windows get `TumblingWindowAssigner(window_size, 0, is_row_time)`,
tumbling count windows get `CountTumblingWindowAssigner(window_size)`;
sliding and session window types raise; the trigger is EventTimeTrigger /
ProcessingTimeTrigger for time windows (row time or not) and
`CountTrigger(window_size)` otherwise. -/
def create_process_function_windowing (w : GroupWindow) :
    Except String (WindowAssigner × WindowTrigger) :=
  match w.window_type with
  | .TUMBLING_GROUP_WINDOW =>
    let window_assigner :=
      if w.is_time_window then
        WindowAssigner.TumblingWindowAssigner w.window_size 0 w.is_row_time
      else
        WindowAssigner.CountTumblingWindowAssigner w.window_size
    let trigger :=
      if w.is_time_window then
        if w.is_row_time then
          WindowTrigger.EventTimeTrigger
        else
          WindowTrigger.ProcessingTimeTrigger
      else
        WindowTrigger.CountTrigger w.window_size
    .ok (window_assigner, trigger)
  | .SLIDING_GROUP_WINDOW =>
    .error "General Python UDAF in Sliding window will be implemented in FLINK-21629"
  | .SESSION_GROUP_WINDOW =>
    .error "General Python UDAF in Sessiong window will be implemented in FLINK-21630"

/-- A time window `(start, end)` as consumed by the named-property
formulas (`value.start`, `value.end`). -/
structure TimeWindow where
  start : Int
  «end» : Int
deriving DecidableEq, Repr

/-- The per-property formula string compiled by
`_create_named_property_function`: `value.start` for WINDOW_START,
`value.end` for WINDOW_END, `value.end - 1` for ROW_TIME_ATTRIBUTE, `-1`
for PROC_TIME_ATTRIBUTE; any other property raises
`Unexpected property ...`. -/
def namedPropertyFormula (named_property : NamedWindowProperty) :
    Except String (TimeWindow → Int) :=
  match named_property with
  | .WINDOW_START => .ok (fun value => value.start)
  | .WINDOW_END => .ok (fun value => value.«end»)
  | .ROW_TIME_ATTRIBUTE => .ok (fun value => value.«end» - 1)
  | .PROC_TIME_ATTRIBUTE => .ok (fun _ => -1)
  | .UNKNOWN tag => .error ("Unexpected property " ++ toString tag)

/-- Collect the per-property formulas in configuration order, failing at
the first unknown property (mirroring the `for named_property in
self._window.namedProperties` loop with its `raise` branch). -/
def namedPropertyFormulas :
    List NamedWindowProperty → Except String (List (TimeWindow → Int))
  | [] => .ok []
  | p :: rest =>
    match namedPropertyFormula p with
    | .error msg => .error msg
    | .ok f =>
      match namedPropertyFormulas rest with
      | .error msg => .error msg
      | .ok fs => .ok (f :: fs)

/-- Embedding of
`StreamGroupWindowAggregateOperation._create_named_property_function`:
build the formula list; if it is empty (`named_property_extractor_str`
falsy) the extractor is `None`, otherwise it is
`lambda value: [f1(value), ..., fn(value)]`. -/
def _create_named_property_function (namedProperties : List NamedWindowProperty) :
    Except String (Option (TimeWindow → List Int)) :=
  (namedPropertyFormulas namedProperties).map (fun fs =>
    if fs.isEmpty then none
    else some (fun value => fs.map (fun f => f value)))

/-- The values the specification assigns to each named property of a
firing window: window start, window end, `end - 1` for the row-time
attribute, and the constant `-1` for the processing-time attribute.  (The
UNKNOWN case is never reached under the claim's validity hypothesis.) -/
def specNamedPropertyValue : NamedWindowProperty → TimeWindow → Int
  | .WINDOW_START, w => w.start
  | .WINDOW_END, w => w.«end»
  | .ROW_TIME_ATTRIBUTE, w => w.«end» - 1
  | .PROC_TIME_ATTRIBUTE, _ => -1
  | .UNKNOWN _, _ => 0

/-- Whether a named property is one of the four known kinds. -/
def isKnownProperty : NamedWindowProperty → Bool
  | .UNKNOWN _ => false
  | _ => true

/-- `DistinctViewDescriptor(input_extractor, filter_args)` from
`aggregate_slow` / `_fast`, as constructed by `generate_func`. -/
structure DistinctViewDescriptor (E : Type) where
  input_extractor : E
  filter_args : List Int
deriving DecidableEq, Repr

/-- Python `dict` assignment `d[k] = v` on an insertion-ordered
association list: overwrite in place when the key exists, append
otherwise. -/
def dictInsert {α : Type} (d : List (Nat × α)) (k : Nat) (v : α) :
    List (Nat × α) :=
  if d.any (fun kv => kv.1 == k) then
    d.map (fun kv => if kv.1 == k then (k, v) else kv)
  else
    d ++ [(k, v)]

/-- Embedding of the distinct-view descriptor construction in
`AbstractStreamGroupAggregateOperation.generate_func`: for each
`(agg_index_list, filter_arg_list)` in `distinct_info_dict.values()`, if
`-1 in filter_arg_list` the filter list becomes empty, and the descriptor
is stored under key `agg_index_list[0]` with
`input_extractors[agg_index_list[0]]`. -/
def buildDistinctViewDescriptors {E : Type} (input_extractors : Nat → E)
    (distinct_info : List (List Nat × List Int)) :
    List (Nat × DistinctViewDescriptor E) :=
  distinct_info.foldl (fun acc g =>
    let agg_index_list := g.1
    let filter_arg_list := if (-1 : Int) ∈ g.2 then [] else g.2
    let k := agg_index_list.headD 0
    dictInsert acc k ⟨input_extractors k, filter_arg_list⟩) []

/-- The descriptor entry one group contributes, per the source: keyed by
the group's first aggregate index, carrying that function's input
extractor, with an emptied filter list whenever `-1` is present. -/
def groupDescriptor {E : Type} (input_extractors : Nat → E)
    (g : List Nat × List Int) : Nat × DistinctViewDescriptor E :=
  (g.1.headD 0,
   ⟨input_extractors (g.1.headD 0), if (-1 : Int) ∈ g.2 then [] else g.2⟩)

/-- State of `ProcessFunctionOperation.InternalTimerService`, the timer
service handed to non-keyed process functions: it holds only the current
watermark and has no timer storage at all. -/
structure ProcessFunctionOperation.InternalTimerService where
  _current_watermark : Option Int
deriving DecidableEq, Repr

/-- `register_processing_time_timer` on the non-keyed timer service:
unconditionally raises. -/
def ProcessFunctionOperation.InternalTimerService.register_processing_time_timer
    (_self : ProcessFunctionOperation.InternalTimerService) (_t : Int) :
    Except String ProcessFunctionOperation.InternalTimerService :=
  .error "Register timers is only supported on a keyed stream."

/-- `register_event_time_timer` on the non-keyed timer service:
unconditionally raises. -/
def ProcessFunctionOperation.InternalTimerService.register_event_time_timer
    (_self : ProcessFunctionOperation.InternalTimerService) (_t : Int) :
    Except String ProcessFunctionOperation.InternalTimerService :=
  .error "Register timers is only supported on a keyed stream."

end Configuration

section Fixtures

/-!
### Concrete instances used by witnesses and counterexamples
-/

/-- A concrete non-windowed aggregate function over `Nat` state: the state
sums what it sees and `finish_bundle` reports it. -/
def natGroupAggFunction : GroupAggFunction Nat Nat Nat where
  process_element := fun s r => s + r
  on_timer := fun s k => s + 2 * k
  finish_bundle := fun s => (0, [s])

/-- A concrete batch for the non-windowed dispatcher: one NORMAL_RECORD
followed by one timer record. -/
def nwBatch : List (NonWindowedInput Nat Nat) :=
  [⟨NORMAL_RECORD, 5, 0, 0⟩, ⟨TRIGGER_TIMER, 0, 7, 3⟩]

/-- Modelled from the spec: a windowed aggregate function whose state is
its pending timer-request list — `on_event_time` registers a request (the
spec lets requests accumulate "during the last processElement/onTimer
call") and `get_timers` drains the pending set. -/
def timerAccumulatingAgg :
    GroupWindowAggFunction (List (TimerOperandType × InternalTimer Nat Nat)) Nat Nat Nat where
  process_watermark := fun s _ => s
  process_element := fun s _ => (s, [])
  get_timers := fun s => ([], s)
  on_event_time := fun s timer =>
    (s ++ [(TimerOperandType.REGISTER_EVENT_TIMER, timer)], [])
  on_processing_time := fun s _ => (s, [])

/-- A TRIGGER_TIMER input with timer kind REGISTER_EVENT_TIMER, timestamp
5, key 7, encoded namespace `[3]`. -/
def c1FiringInput : WindowedInput Nat Nat :=
  ⟨TRIGGER_TIMER, 0, 5, 0, ⟨REGISTER_EVENT_TIMER, 7, [3]⟩⟩

/-- A NORMAL_RECORD input with element 4 and watermark 9. -/
def c1NormalInput : WindowedInput Nat Nat :=
  ⟨NORMAL_RECORD, 4, 0, 9, ⟨0, 0, []⟩⟩

/-- Modelled from the spec: a windowed aggregate function that records
which timer handler ran (0 for the event-time handler, 1 for the
processing-time handler). -/
def handlerLoggingAgg : GroupWindowAggFunction (List Nat) Nat Nat Nat where
  process_watermark := fun s _ => s
  process_element := fun s _ => (s, [])
  get_timers := fun s => (s, [])
  on_event_time := fun s _ => (s ++ [0], [])
  on_processing_time := fun s _ => (s ++ [1], [])

/-- A TRIGGER_TIMER input whose timer kind is 2 — neither
REGISTER_EVENT_TIMER (0) nor REGISTER_PROCESSING_TIMER (1). -/
def c2UnknownKindInput : WindowedInput Nat Nat :=
  ⟨TRIGGER_TIMER, 0, 5, 0, ⟨2, 7, [3]⟩⟩

/-- A TRIGGER_TIMER input with timer kind REGISTER_EVENT_TIMER. -/
def c2EventKindInput : WindowedInput Nat Nat :=
  ⟨TRIGGER_TIMER, 0, 5, 0, ⟨REGISTER_EVENT_TIMER, 7, [3]⟩⟩

/-- The decoder used by the concrete windowed runs: a byte string decodes
to its first byte. -/
def headDecoder (b : Bytes) : Nat := b.headD 0

/-- The encoder used by the concrete windowed runs: a namespace encodes to
the singleton byte string. -/
def singletonEncoder (n : Nat) : Bytes := [n]

end Fixtures

section ClaimTheorems

/-- C3: for every input batch given to the non-windowed group-aggregate
operation, each NORMAL_RECORD input is dispatched in arrival order to
`process_element` with the input's element field, every other input to
`on_timer` with the input's key field, and `finish_bundle` is invoked
exactly once, after all inputs (the recorded trace is the per-input
dispatch calls, none of which is `finishBundle`, followed by the single
`finishBundle`), with its result returned as the batch's complete
output. -/
theorem claim_C3 (σ R K : Type) (G : GroupAggFunction σ R K)
    (s : σ) (input_datas : List (NonWindowedInput R K)) :
    (AbstractStreamGroupAggregateOperation.process_element_or_timer G s input_datas).2.2 =
        input_datas.map nwDispatchCall ++ [NWCall.finishBundle] ∧
      (∀ input ∈ input_datas,
        (input.elementType = NORMAL_RECORD →
            nwDispatchCall input = NWCall.processElement input.element) ∧
        (input.elementType ≠ NORMAL_RECORD →
            nwDispatchCall input = NWCall.onTimer input.key) ∧
        nwDispatchCall input ≠ NWCall.finishBundle) ∧
      (AbstractStreamGroupAggregateOperation.process_element_or_timer G s input_datas).2.1 =
        (G.finish_bundle (input_datas.foldl (nwDispatchStep G) s)).2 := by
  refine ⟨?_, ?_, ?_⟩
  · simp [AbstractStreamGroupAggregateOperation.process_element_or_timer,
      processInputLoop_spec]
  · intro input _
    refine ⟨?_, ?_, ?_⟩
    · intro h
      simp [nwDispatchCall, h]
    · intro h
      have hb : (input.elementType == NORMAL_RECORD) = false := by
        simpa using h
      simp [nwDispatchCall, hb]
    · unfold nwDispatchCall
      by_cases hb : input.elementType == NORMAL_RECORD <;> simp [hb]
  · simp [AbstractStreamGroupAggregateOperation.process_element_or_timer,
      processInputLoop_spec]

/-- C3 witness: the theorem applied to a concrete aggregate function and
batch, discharging the membership and tag hypotheses of its middle
conjunct at the NORMAL_RECORD entry. -/
theorem claim_C3_witness :
    (AbstractStreamGroupAggregateOperation.process_element_or_timer
        natGroupAggFunction 0 nwBatch).2.2 =
      nwBatch.map nwDispatchCall ++ [NWCall.finishBundle] ∧
    nwDispatchCall (⟨NORMAL_RECORD, 5, 0, 0⟩ : NonWindowedInput Nat Nat) =
      NWCall.processElement 5 :=
  ⟨(claim_C3 Nat Nat Nat natGroupAggFunction 0 nwBatch).1,
   (((claim_C3 Nat Nat Nat natGroupAggFunction 0 nwBatch).2.1
      ⟨NORMAL_RECORD, 5, 0, 0⟩ (by decide)).1 rfl)⟩

/-- C10: for every NORMAL_RECORD input to the windowed dispatcher,
`process_watermark` is invoked with the input's fourth field
(`input_data[3]`) before `process_element` is invoked — both in the
recorded call order and in the data flow of the aggregate-function state —
and this is unconditional: the dispatcher is one and the same function
whatever window type (count or time) the aggregate function was configured
with, as it never inspects the window configuration. -/
theorem claim_C10 (σ R K N : Type) (G : GroupWindowAggFunction σ R K N)
    (encode_nested : N → Bytes) (decode_nested : Bytes → N)
    (s : σ) (input_data : WindowedInput R K)
    (h : input_data.elementType = NORMAL_RECORD) :
    (StreamGroupWindowAggregateOperation.process_element_or_timer
        G encode_nested decode_nested s input_data).2.2 =
      [WinCall.processWatermark input_data.watermark,
       WinCall.processElement input_data.element,
       WinCall.getTimers] ∧
    (StreamGroupWindowAggregateOperation.process_element_or_timer
        G encode_nested decode_nested s input_data).1 =
      (G.get_timers (G.process_element (G.process_watermark s input_data.watermark)
          input_data.element).1).1 := by
  constructor <;>
    simp [StreamGroupWindowAggregateOperation.process_element_or_timer, h]

/-- C10 witness: the theorem applied to a concrete aggregate function —
one built for count-style windows (it ignores watermarks) — at a concrete
NORMAL_RECORD input. -/
theorem claim_C10_witness :
    (StreamGroupWindowAggregateOperation.process_element_or_timer
        timerAccumulatingAgg singletonEncoder headDecoder [] c1NormalInput).2.2 =
      [WinCall.processWatermark c1NormalInput.watermark,
       WinCall.processElement c1NormalInput.element,
       WinCall.getTimers] ∧
    (StreamGroupWindowAggregateOperation.process_element_or_timer
        timerAccumulatingAgg singletonEncoder headDecoder [] c1NormalInput).1 =
      (timerAccumulatingAgg.get_timers
        (timerAccumulatingAgg.process_element
          (timerAccumulatingAgg.process_watermark [] c1NormalInput.watermark)
          c1NormalInput.element).1).1 :=
  claim_C10 _ _ _ _ timerAccumulatingAgg singletonEncoder headDecoder [] c1NormalInput rfl

/-- C4: every output entry of the windowed dispatcher is either a change
record wrapped as `[NORMAL_RECORD, changeRecord, None]` or a timer request
wrapped as `[TRIGGER_TIMER, None, [timerKind, key, timestamp,
encodedNamespace]]`, the latter coming from a drained timer whose window
namespace is nested-encoded into the payload's last field. -/
theorem claim_C4 (σ R K N : Type) (G : GroupWindowAggFunction σ R K N)
    (encode_nested : N → Bytes) (decode_nested : Bytes → N)
    (s : σ) (input_data : WindowedInput R K) (entry : OutputEntry R K)
    (h : entry ∈ (StreamGroupWindowAggregateOperation.process_element_or_timer
        G encode_nested decode_nested s input_data).2.1) :
    (entry.tag = NORMAL_RECORD ∧ entry.timer = none ∧ ∃ r, entry.record = some r) ∨
    (entry.tag = TRIGGER_TIMER ∧ entry.record = none ∧
      ∃ (ot : TimerOperandType) (it : InternalTimer K N),
        (ot, it) ∈ (G.get_timers (G.process_element
            (G.process_watermark s input_data.watermark) input_data.element).1).2 ∧
        entry.timer = some ⟨ot.value, it.get_key, it.get_timestamp,
          encode_nested it.get_namespace⟩) := by
  unfold StreamGroupWindowAggregateOperation.process_element_or_timer at h
  by_cases hb : input_data.elementType == NORMAL_RECORD
  · rw [if_pos hb] at h
    simp only [List.mem_append, List.mem_map] at h
    rcases h with ⟨r, _, rfl⟩ | ⟨t, ht, rfl⟩
    · exact Or.inl ⟨rfl, rfl, r, rfl⟩
    · refine Or.inr ⟨rfl, rfl, t.1, t.2, ht, rfl⟩
  · rw [if_neg hb] at h
    by_cases ht : input_data.timerData.timerType == REGISTER_EVENT_TIMER
    · rw [if_pos ht] at h
      simp only [List.mem_map] at h
      obtain ⟨r, _, rfl⟩ := h
      exact Or.inl ⟨rfl, rfl, r, rfl⟩
    · rw [if_neg ht] at h
      simp only [List.mem_map] at h
      obtain ⟨r, _, rfl⟩ := h
      exact Or.inl ⟨rfl, rfl, r, rfl⟩

/-- C4 witness: the theorem applied at a concrete run in which the
aggregate function returns one change record, at that record's output
entry. -/
theorem claim_C4_witness :
    (⟨NORMAL_RECORD, some 4, none⟩ : OutputEntry Nat Nat).tag = NORMAL_RECORD ∧
      (⟨NORMAL_RECORD, some 4, none⟩ : OutputEntry Nat Nat).timer = none ∧
      ∃ r, (⟨NORMAL_RECORD, some 4, none⟩ : OutputEntry Nat Nat).record = some r :=
  (claim_C4 (List Nat) Nat Nat Nat
      ⟨fun s _ => s, fun s r => (s, [r]), fun s => (s, []),
       fun s _ => (s, []), fun s _ => (s, [])⟩
      singletonEncoder headDecoder [] c1NormalInput
      ⟨NORMAL_RECORD, some 4, none⟩ (by decide)).resolve_right
    (by rintro ⟨h1, -, -⟩; exact absurd h1 (by decide))

/-- C1 counterexample: refutes the claim that timer requests accumulated
during an `onTimer` invocation are drained via `get_timers` and forwarded.
On a TRIGGER_TIMER input handled by an aggregate function that registers a
timer request while processing the firing, the dispatcher makes no
`get_timers` call, forwards no output at all, and leaves the request
pending in the aggregate-function state (a subsequent `get_timers` would
still return it). -/
theorem claim_C1_counterexample :
    (timerAccumulatingAgg.get_timers
        (StreamGroupWindowAggregateOperation.process_element_or_timer
          timerAccumulatingAgg singletonEncoder headDecoder [] c1FiringInput).1).2 ≠ [] ∧
      (StreamGroupWindowAggregateOperation.process_element_or_timer
          timerAccumulatingAgg singletonEncoder headDecoder [] c1FiringInput).2.1 = [] ∧
      WinCall.getTimers ∉ (StreamGroupWindowAggregateOperation.process_element_or_timer
          timerAccumulatingAgg singletonEncoder headDecoder [] c1FiringInput).2.2 := by
  decide

/-- C1 (amended): the timer registration/deletion requests are drained via
`get_timers` and forwarded as TRIGGER_TIMER-tagged entries (carrying the
operand kind and the encoded window namespace) only after `processElement`
invocations; after `onTimer` invocations (event-time or processing-time
firings) no `get_timers` call is made, and no TRIGGER_TIMER entry is
forwarded — every output of that branch is NORMAL_RECORD-tagged. -/
theorem claim_C1_amended (σ R K N : Type) (G : GroupWindowAggFunction σ R K N)
    (encode_nested : N → Bytes) (decode_nested : Bytes → N)
    (s : σ) (input_data : WindowedInput R K) :
    (input_data.elementType = NORMAL_RECORD →
      WinCall.getTimers ∈ (StreamGroupWindowAggregateOperation.process_element_or_timer
          G encode_nested decode_nested s input_data).2.2 ∧
      (StreamGroupWindowAggregateOperation.process_element_or_timer
          G encode_nested decode_nested s input_data).2.1 =
        (G.process_element (G.process_watermark s input_data.watermark)
            input_data.element).2.map
          (fun result_data => OutputEntry.mk NORMAL_RECORD (some result_data) none) ++
        (G.get_timers (G.process_element (G.process_watermark s input_data.watermark)
            input_data.element).1).2.map (timerOutputEntry encode_nested)) ∧
    (input_data.elementType ≠ NORMAL_RECORD →
      WinCall.getTimers ∉ (StreamGroupWindowAggregateOperation.process_element_or_timer
          G encode_nested decode_nested s input_data).2.2 ∧
      ∀ entry ∈ (StreamGroupWindowAggregateOperation.process_element_or_timer
          G encode_nested decode_nested s input_data).2.1,
        entry.tag = NORMAL_RECORD) := by
  constructor
  · intro h
    constructor <;>
      simp [StreamGroupWindowAggregateOperation.process_element_or_timer, h]
  · intro h
    have hb : (input_data.elementType == NORMAL_RECORD) = false := by
      simpa using h
    unfold StreamGroupWindowAggregateOperation.process_element_or_timer
    rw [if_neg (by simp [hb])]
    by_cases ht : input_data.timerData.timerType == REGISTER_EVENT_TIMER
    · rw [if_pos ht]
      refine ⟨by simp, ?_⟩
      intro entry he
      simp only [List.mem_map] at he
      obtain ⟨r, _, rfl⟩ := he
      rfl
    · rw [if_neg ht]
      refine ⟨by simp, ?_⟩
      intro entry he
      simp only [List.mem_map] at he
      obtain ⟨r, _, rfl⟩ := he
      rfl

/-- C1 witness: the amended theorem applied at a concrete NORMAL_RECORD
input (where `get_timers` is called) and at a concrete TRIGGER_TIMER input
(where it is not), with both branch hypotheses discharged. -/
theorem claim_C1_witness :
    WinCall.getTimers ∈ (StreamGroupWindowAggregateOperation.process_element_or_timer
        timerAccumulatingAgg singletonEncoder headDecoder [] c1NormalInput).2.2 ∧
    WinCall.getTimers ∉ (StreamGroupWindowAggregateOperation.process_element_or_timer
        timerAccumulatingAgg singletonEncoder headDecoder [] c1FiringInput).2.2 :=
  ⟨((claim_C1_amended _ _ _ _ timerAccumulatingAgg singletonEncoder headDecoder
      [] c1NormalInput).1 rfl).1,
   ((claim_C1_amended _ _ _ _ timerAccumulatingAgg singletonEncoder headDecoder
      [] c1FiringInput).2 (by decide)).1⟩

/-- C2 counterexample: refutes the claim that a TRIGGER_TIMER input whose
timer kind is neither 0 nor 1 fails with a fatal error and is never
dispatched.  With timer kind 2, the dispatcher completes normally and
invokes the processing-time handler (the handler-log state records a 1 and
the trace records the `on_processing_time` call). -/
theorem claim_C2_counterexample :
    (StreamGroupWindowAggregateOperation.process_element_or_timer
        handlerLoggingAgg singletonEncoder headDecoder [] c2UnknownKindInput).1 = [1] ∧
      (StreamGroupWindowAggregateOperation.process_element_or_timer
          handlerLoggingAgg singletonEncoder headDecoder [] c2UnknownKindInput).2.2 =
        [WinCall.onProcessingTime ⟨5, 7, 3⟩] := by
  decide

/-- C2 (amended): on a TRIGGER_TIMER input the dispatcher performs no
validation of the timer kind: kind 0 (register-event) is dispatched to the
event-time handler, and every other kind — including unknown kinds such as
2 — is dispatched to the processing-time handler; in both cases the call
completes normally with the rebuilt internal timer (timestamp, key,
decoded namespace). -/
theorem claim_C2_amended (σ R K N : Type) (G : GroupWindowAggFunction σ R K N)
    (encode_nested : N → Bytes) (decode_nested : Bytes → N)
    (s : σ) (input_data : WindowedInput R K)
    (h : input_data.elementType ≠ NORMAL_RECORD) :
    (input_data.timerData.timerType = REGISTER_EVENT_TIMER →
      (StreamGroupWindowAggregateOperation.process_element_or_timer
          G encode_nested decode_nested s input_data).2.2 =
        [WinCall.onEventTime ⟨input_data.timestamp, input_data.timerData.key,
          decode_nested input_data.timerData.encodedNs⟩]) ∧
    (input_data.timerData.timerType ≠ REGISTER_EVENT_TIMER →
      (StreamGroupWindowAggregateOperation.process_element_or_timer
          G encode_nested decode_nested s input_data).2.2 =
        [WinCall.onProcessingTime ⟨input_data.timestamp, input_data.timerData.key,
          decode_nested input_data.timerData.encodedNs⟩]) := by
  have hb : (input_data.elementType == NORMAL_RECORD) = false := by
    simpa using h
  constructor
  · intro ht
    simp [StreamGroupWindowAggregateOperation.process_element_or_timer, hb, ht]
  · intro ht
    have hbt : (input_data.timerData.timerType == REGISTER_EVENT_TIMER) = false := by
      simpa using ht
    simp [StreamGroupWindowAggregateOperation.process_element_or_timer, hb, hbt]

/-- C2 witness: the amended theorem applied at a concrete kind-0 input and
at a concrete kind-2 input, discharging the branch hypotheses. -/
theorem claim_C2_witness :
    (StreamGroupWindowAggregateOperation.process_element_or_timer
        handlerLoggingAgg singletonEncoder headDecoder [] c2EventKindInput).2.2 =
      [WinCall.onEventTime ⟨c2EventKindInput.timestamp, c2EventKindInput.timerData.key,
        headDecoder c2EventKindInput.timerData.encodedNs⟩] ∧
    (StreamGroupWindowAggregateOperation.process_element_or_timer
        handlerLoggingAgg singletonEncoder headDecoder [] c2UnknownKindInput).2.2 =
      [WinCall.onProcessingTime ⟨c2UnknownKindInput.timestamp, c2UnknownKindInput.timerData.key,
        headDecoder c2UnknownKindInput.timerData.encodedNs⟩] :=
  ⟨(claim_C2_amended _ _ _ _ handlerLoggingAgg singletonEncoder headDecoder
      [] c2EventKindInput (by decide)).1 rfl,
   (claim_C2_amended _ _ _ _ handlerLoggingAgg singletonEncoder headDecoder
      [] c2UnknownKindInput (by decide)).2 (by decide)⟩

/-- C5: for every windowed configuration whose group-window type is
sliding or session, `create_process_function`'s window selection raises
the corresponding not-implemented error (naming the tracking issue) and
never produces any assigner/trigger pair. -/
theorem claim_C5 (w : GroupWindow) :
    (w.window_type = GroupWindowType.SLIDING_GROUP_WINDOW →
      create_process_function_windowing w =
        .error "General Python UDAF in Sliding window will be implemented in FLINK-21629") ∧
    (w.window_type = GroupWindowType.SESSION_GROUP_WINDOW →
      create_process_function_windowing w =
        .error "General Python UDAF in Sessiong window will be implemented in FLINK-21630") ∧
    ((w.window_type = GroupWindowType.SLIDING_GROUP_WINDOW ∨
        w.window_type = GroupWindowType.SESSION_GROUP_WINDOW) →
      ∀ r, create_process_function_windowing w ≠ .ok r) := by
  refine ⟨?_, ?_, ?_⟩
  · intro h
    simp [create_process_function_windowing, h]
  · intro h
    simp [create_process_function_windowing, h]
  · rintro (h | h) r <;> simp [create_process_function_windowing, h]

/-- C5 witness: the theorem applied at a concrete sliding configuration
and a concrete session configuration. -/
theorem claim_C5_witness :
    create_process_function_windowing
        ⟨GroupWindowType.SLIDING_GROUP_WINDOW, true, 10, true, 0, 1, []⟩ =
      .error "General Python UDAF in Sliding window will be implemented in FLINK-21629" ∧
    create_process_function_windowing
        ⟨GroupWindowType.SESSION_GROUP_WINDOW, true, 10, true, 0, 1, []⟩ =
      .error "General Python UDAF in Sessiong window will be implemented in FLINK-21630" :=
  ⟨(claim_C5 ⟨GroupWindowType.SLIDING_GROUP_WINDOW, true, 10, true, 0, 1, []⟩).1 rfl,
   (claim_C5 ⟨GroupWindowType.SESSION_GROUP_WINDOW, true, 10, true, 0, 1, []⟩).2.1 rfl⟩

/-- C9: every tumbling time-window assigner the operation constructs uses
offset 0 — a tumbling time-window configuration yields exactly
`TumblingWindowAssigner(window_size, 0, is_row_time)`, and no
configuration whatsoever can produce a tumbling assigner with a non-zero
offset. -/
theorem claim_C9 (w : GroupWindow) :
    (w.window_type = GroupWindowType.TUMBLING_GROUP_WINDOW → w.is_time_window = true →
      ∃ trig, create_process_function_windowing w =
        .ok (WindowAssigner.TumblingWindowAssigner w.window_size 0 w.is_row_time, trig)) ∧
    (∀ size offset is_event_time trig,
      create_process_function_windowing w =
        .ok (WindowAssigner.TumblingWindowAssigner size offset is_event_time, trig) →
      offset = 0) := by
  constructor
  · intro ht htw
    exact ⟨if w.is_row_time then WindowTrigger.EventTimeTrigger
           else WindowTrigger.ProcessingTimeTrigger,
      by simp [create_process_function_windowing, ht, htw]⟩
  · intro size offset is_event_time trig h
    cases hw : w.window_type <;> rw [create_process_function_windowing, hw] at h
    · by_cases htw : w.is_time_window
      · simp only [htw, if_true, Except.ok.injEq, Prod.mk.injEq] at h
        rcases h with ⟨h1, -⟩
        cases h1
        rfl
      · simp [htw] at h
    · cases h
    · cases h

/-- C9 witness: the theorem applied at a concrete tumbling time-window
configuration (first conjunct) and at the resulting concrete equation
(second conjunct). -/
theorem claim_C9_witness :
    (∃ trig, create_process_function_windowing
        ⟨GroupWindowType.TUMBLING_GROUP_WINDOW, true, 10, true, 0, 1, []⟩ =
      .ok (WindowAssigner.TumblingWindowAssigner 10 0 true, trig)) ∧ (0 : Int) = 0 :=
  ⟨(claim_C9 ⟨GroupWindowType.TUMBLING_GROUP_WINDOW, true, 10, true, 0, 1, []⟩).1 rfl rfl,
   (claim_C9 ⟨GroupWindowType.TUMBLING_GROUP_WINDOW, true, 10, true, 0, 1, []⟩).2
     10 0 true WindowTrigger.EventTimeTrigger rfl⟩

theorem namedPropertyFormulas_ok (props : List NamedWindowProperty)
    (h : ∀ p ∈ props, isKnownProperty p = true) :
    ∃ fs, namedPropertyFormulas props = .ok fs ∧
      fs.length = props.length ∧
      ∀ w, fs.map (fun f => f w) = props.map (fun p => specNamedPropertyValue p w) := by
  induction props with
  | nil => exact ⟨[], rfl, rfl, fun w => rfl⟩
  | cons p rest ih =>
    obtain ⟨fs, hfs, hlen, hmap⟩ := ih (fun q hq => h q (List.mem_cons_of_mem _ hq))
    have hp := h p (List.mem_cons_self _ _)
    cases p with
    | UNKNOWN tag => simp [isKnownProperty] at hp
    | WINDOW_START =>
      exact ⟨(fun value => value.start) :: fs,
        by simp [namedPropertyFormulas, namedPropertyFormula, hfs],
        by simp [hlen], fun w => by simp [hmap w, specNamedPropertyValue]⟩
    | WINDOW_END =>
      exact ⟨(fun value => value.«end») :: fs,
        by simp [namedPropertyFormulas, namedPropertyFormula, hfs],
        by simp [hlen], fun w => by simp [hmap w, specNamedPropertyValue]⟩
    | ROW_TIME_ATTRIBUTE =>
      exact ⟨(fun value => value.«end» - 1) :: fs,
        by simp [namedPropertyFormulas, namedPropertyFormula, hfs],
        by simp [hlen], fun w => by simp [hmap w, specNamedPropertyValue]⟩
    | PROC_TIME_ATTRIBUTE =>
      exact ⟨(fun _ => -1) :: fs,
        by simp [namedPropertyFormulas, namedPropertyFormula, hfs],
        by simp [hlen], fun w => by simp [hmap w, specNamedPropertyValue]⟩

theorem namedPropertyFormulas_error (props : List NamedWindowProperty)
    (h : ∃ p ∈ props, isKnownProperty p = false) :
    ∃ msg, namedPropertyFormulas props = .error msg := by
  induction props with
  | nil => simp at h
  | cons p rest ih =>
    rcases h with ⟨q, hq, hqk⟩
    rcases List.mem_cons.mp hq with rfl | hq'
    · cases q with
      | UNKNOWN tag =>
        exact ⟨"Unexpected property " ++ toString tag,
          by simp [namedPropertyFormulas, namedPropertyFormula]⟩
      | WINDOW_START => simp [isKnownProperty] at hqk
      | WINDOW_END => simp [isKnownProperty] at hqk
      | ROW_TIME_ATTRIBUTE => simp [isKnownProperty] at hqk
      | PROC_TIME_ATTRIBUTE => simp [isKnownProperty] at hqk
    · cases hpf : namedPropertyFormula p with
      | error m => exact ⟨m, by simp [namedPropertyFormulas, hpf]⟩
      | ok f =>
        obtain ⟨m, hm⟩ := ih ⟨q, hq', hqk⟩
        exact ⟨m, by simp [namedPropertyFormulas, hpf, hm]⟩

/-- C6: for every configured sequence of named window properties
consisting of known kinds, the extractor built by
`_create_named_property_function` returns, for every firing window `w` and
in configuration order, `w.start` for WINDOW_START, `w.end` for
WINDOW_END, `w.end - 1` for ROW_TIME_ATTRIBUTE and the constant `-1` for
PROC_TIME_ATTRIBUTE; a configuration containing any other kind raises a
descriptive error at setup time. -/
theorem claim_C6 (props : List NamedWindowProperty) :
    ((∀ p ∈ props, isKnownProperty p = true) → props ≠ [] →
      ∃ f, _create_named_property_function props = .ok (some f) ∧
        ∀ w, f w = props.map (fun p => specNamedPropertyValue p w)) ∧
    ((∃ p ∈ props, isKnownProperty p = false) →
      ∃ msg, _create_named_property_function props = .error msg) := by
  constructor
  · intro hk hne
    obtain ⟨fs, hfs, hlen, hmap⟩ := namedPropertyFormulas_ok props hk
    have hfse : fs.isEmpty = false := by
      cases fs with
      | nil =>
        cases props with
        | nil => exact absurd rfl hne
        | cons p rest => simp at hlen
      | cons f fs' => rfl
    refine ⟨fun value => fs.map (fun f => f value), ?_, hmap⟩
    simp [_create_named_property_function, hfs, hfse, Except.map]
  · intro hbad
    obtain ⟨msg, hmsg⟩ := namedPropertyFormulas_error props hbad
    exact ⟨msg, by simp [_create_named_property_function, hmsg, Except.map]⟩

/-- C6 witness: the theorem applied at a concrete configuration with all
four known properties (first conjunct) and at a configuration containing
an out-of-range property (second conjunct). -/
theorem claim_C6_witness :
    (∃ f, _create_named_property_function
        [NamedWindowProperty.WINDOW_START, NamedWindowProperty.WINDOW_END,
         NamedWindowProperty.ROW_TIME_ATTRIBUTE, NamedWindowProperty.PROC_TIME_ATTRIBUTE] =
      .ok (some f) ∧
      ∀ w, f w =
        [NamedWindowProperty.WINDOW_START, NamedWindowProperty.WINDOW_END,
         NamedWindowProperty.ROW_TIME_ATTRIBUTE, NamedWindowProperty.PROC_TIME_ATTRIBUTE].map
          (fun p => specNamedPropertyValue p w)) ∧
    ∃ msg, _create_named_property_function [NamedWindowProperty.UNKNOWN 9] = .error msg :=
  ⟨(claim_C6 _).1 (by decide) (by decide),
   (claim_C6 [NamedWindowProperty.UNKNOWN 9]).2 ⟨NamedWindowProperty.UNKNOWN 9, by decide⟩⟩

theorem dictInsert_of_not_mem {α : Type} (d : List (Nat × α)) (k : Nat) (v : α)
    (h : k ∉ d.map Prod.fst) : dictInsert d k v = d ++ [(k, v)] := by
  have ha : d.any (fun kv => kv.1 == k) = false := by
    rw [List.any_eq_false]
    intro kv hkv
    exact fun he => h (List.mem_map.mpr ⟨kv, hkv, eq_of_beq he⟩)
  simp [dictInsert, ha]

theorem buildDistinctViewDescriptors_go {E : Type} (input_extractors : Nat → E)
    (groups : List (List Nat × List Int)) (acc : List (Nat × DistinctViewDescriptor E))
    (hnodup : (groups.map (fun g => g.1.headD 0)).Nodup)
    (hacc : ∀ g ∈ groups, g.1.headD 0 ∉ acc.map Prod.fst) :
    groups.foldl (fun acc g =>
        let agg_index_list := g.1
        let filter_arg_list := if (-1 : Int) ∈ g.2 then [] else g.2
        let k := agg_index_list.headD 0
        dictInsert acc k ⟨input_extractors k, filter_arg_list⟩) acc =
      acc ++ groups.map (groupDescriptor input_extractors) := by
  induction groups generalizing acc with
  | nil => rw [List.foldl_nil, List.map_nil, List.append_nil]
  | cons g rest ih =>
    have hg : g.1.headD 0 ∉ acc.map Prod.fst :=
      hacc g (List.mem_cons_self _ _)
    have hstep : dictInsert acc (g.1.headD 0)
        ⟨input_extractors (g.1.headD 0), if (-1 : Int) ∈ g.2 then [] else g.2⟩ =
        acc ++ [groupDescriptor input_extractors g] :=
      dictInsert_of_not_mem acc _ _ hg
    simp only [List.foldl_cons, List.map_cons]
    rw [hstep, ih]
    · simp [groupDescriptor]
    · exact (List.nodup_cons.mp hnodup).2
    · intro g' hg'
      simp only [List.map_append, List.mem_append]
      rintro (hin | hin)
      · exact hacc g' (List.mem_cons_of_mem _ hg') hin
      · have heq : g'.1.headD 0 = g.1.headD 0 := by
          simpa [groupDescriptor] using hin
        exact (List.nodup_cons.mp hnodup).1 (List.mem_map.mpr ⟨g', hg', heq⟩)

/-- C7: when the aggregate operation builds the shared distinct-view
descriptors (each group nonempty, group heads pairwise distinct as
produced by the extraction step), exactly one descriptor is created per
group — the result is exactly the per-group list — keyed by the group's
first aggregate index and using that function's input extractor; and a
group containing an unfiltered function (filter argument -1) gets an empty
filter-argument list. -/
theorem claim_C7 {E : Type} (input_extractors : Nat → E)
    (distinct_info : List (List Nat × List Int))
    (_hne : ∀ g ∈ distinct_info, g.1 ≠ [])
    (hnodup : (distinct_info.map (fun g => g.1.headD 0)).Nodup) :
    buildDistinctViewDescriptors input_extractors distinct_info =
        distinct_info.map (groupDescriptor input_extractors) ∧
      (buildDistinctViewDescriptors input_extractors distinct_info).length =
        distinct_info.length ∧
      ∀ g ∈ distinct_info, (-1 : Int) ∈ g.2 →
        (groupDescriptor input_extractors g).2.filter_args = [] := by
  have hmain : buildDistinctViewDescriptors input_extractors distinct_info =
      distinct_info.map (groupDescriptor input_extractors) := by
    have := buildDistinctViewDescriptors_go input_extractors distinct_info [] hnodup
      (fun g _ => by simp)
    simpa [buildDistinctViewDescriptors] using this
  refine ⟨hmain, by simp [hmain], ?_⟩
  intro g _ hfilter
  simp [groupDescriptor, hfilter]

/-- C7 witness: the theorem applied at a concrete extractor table and two
groups, one of which contains the unfiltered marker -1. -/
theorem claim_C7_witness :
    buildDistinctViewDescriptors (fun i => i) [([0, 2], [1, -1]), ([1], [3, 4])] =
        [([0, 2], ([1, -1] : List Int)), ([1], [3, 4])].map (groupDescriptor (fun i => i)) ∧
      (buildDistinctViewDescriptors (fun i => i)
          [([0, 2], [1, -1]), ([1], [3, 4])]).length =
        ([([0, 2], ([1, -1] : List Int)), ([1], [3, 4])] :
          List (List Nat × List Int)).length ∧
      ∀ g ∈ ([([0, 2], ([1, -1] : List Int)), ([1], [3, 4])] :
          List (List Nat × List Int)), (-1 : Int) ∈ g.2 →
        (groupDescriptor (fun i => i) g).2.filter_args = [] :=
  claim_C7 (fun i => i) [([0, 2], [1, -1]), ([1], [3, 4])] (by decide) (by decide)

/-- C8: for every timestamp, calling `register_processing_time_timer` or
`register_event_time_timer` on the timer service of the non-keyed
`ProcessFunctionOperation` raises the error stating that registering
timers is only supported on a keyed stream, and never produces a successor
service state — so no timer is ever registered (the service state carries
no timer storage at all). -/
theorem claim_C8 (self : ProcessFunctionOperation.InternalTimerService) (t : Int) :
    self.register_processing_time_timer t =
        .error "Register timers is only supported on a keyed stream." ∧
      self.register_event_time_timer t =
        .error "Register timers is only supported on a keyed stream." ∧
      (∀ s' : ProcessFunctionOperation.InternalTimerService,
        self.register_processing_time_timer t ≠ .ok s') ∧
      (∀ s' : ProcessFunctionOperation.InternalTimerService,
        self.register_event_time_timer t ≠ .ok s') := by
  refine ⟨rfl, rfl, ?_, ?_⟩ <;> intro s' h <;> cases h

/-- C8 witness: the theorem applied at a concrete service state and
timestamp (its last two conjuncts carry negated hypotheses). -/
theorem claim_C8_witness :
    (ProcessFunctionOperation.InternalTimerService.mk
        none).register_processing_time_timer 42 =
      .error "Register timers is only supported on a keyed stream." ∧
    (ProcessFunctionOperation.InternalTimerService.mk
        none).register_event_time_timer 42 =
      .error "Register timers is only supported on a keyed stream." :=
  ⟨(claim_C8 ⟨none⟩ 42).1, (claim_C8 ⟨none⟩ 42).2.1⟩

end ClaimTheorems
